import Mathlib

/-!
# WebDAV backup component (`cmd/server/webui/ui/js/components/webdav.js`)

A shallow embedding of the `WebDAV` class: the values it receives from the
gateway, the page state it reads and writes, and its operations as functions
on that state.  The gateway (`api.js`) is a parameter: a function from the
calls issued so far and the call being issued to that call's outcome.

Conventions of the embedding.
* Every `async` operation is run to completion: an `await` returns the
  gateway's outcome at once, no other handler runs in between.
* Markup assigned to `innerHTML` is kept as the template that produced it
  together with the values interpolated into it (before escaping).
* JavaScript numbers are integers; only their truthiness and their decimal
  rendering are used.
* A rejected gateway promise carries an `Error` whose `message` is a string.
-/

namespace WebDAV

/-! ## JavaScript values -/

/-- JSON values as delivered by the gateway, with `undefined` for what a missing
property reads as. -/
inductive JsVal where
  | undefined
  | null
  | bool (b : Bool)
  | num (n : Int)
  | str (s : String)
  | arr (items : List JsVal)
  | obj (fields : List (String × JsVal))

namespace JsVal

/-- Truthiness, as tested by `if (v)`, `!v`, `a || b`, `a && b` and `Boolean`. -/
def truthy : JsVal → Bool
  | undefined => false
  | null => false
  | bool b => b
  | num n => n != 0
  | str s => s != ""
  | arr _ => true
  | obj _ => true

/-- The value of `a || b`. -/
def or (a b : JsVal) : JsVal :=
  if a.truthy then a else b

/-- Reading `v.key` on a value that is neither `null` nor `undefined`, for the
property names this component reads (`filename`, `name`, `success`,
`conflicts`, `message`, `backups`, `url`, `username`): own property of an
object, `undefined` on a primitive or an array. -/
def prop (v : JsVal) (key : String) : JsVal :=
  match v with
  | obj fields => (fields.lookup key).getD undefined
  | _ => undefined

/-- The message of the `TypeError` raised by a property read on `null` or
`undefined`. -/
def typeErrorMessage (v : JsVal) (key : String) : String :=
  match v with
  | null => "Cannot read properties of null (reading " ++ key ++ ")"
  | _ => "Cannot read properties of undefined (reading " ++ key ++ ")"

mutual
/-- The value of `String(v)`. -/
def toJsString : JsVal → String
  | undefined => "undefined"
  | null => "null"
  | bool b => if b then "true" else "false"
  | num n => toString n
  | str s => s
  | arr items => joinItems items
  | obj _ => "[object Object]"
/-- The value of `items.join(",")`: `null` and `undefined` items render empty. -/
def joinItems : List JsVal → String
  | [] => ""
  | [undefined] => ""
  | [null] => ""
  | [x] => toJsString x
  | undefined :: rest => "," ++ joinItems rest
  | null :: rest => "," ++ joinItems rest
  | x :: rest => toJsString x ++ "," ++ joinItems rest
end

/-- Reading `v.key`: a `TypeError` on `null` and `undefined`. -/
def getProp (v : JsVal) (key : String) : Except String JsVal :=
  match v with
  | undefined => .error (typeErrorMessage v key)
  | null => .error (typeErrorMessage v key)
  | _ => .ok (v.prop key)

/-- The value of `Array.isArray(v) ? v : []`. -/
def asArray : JsVal → List JsVal
  | arr items => items
  | _ => []

end JsVal

open JsVal

/-- The value of `xs[index]`. -/
def elemAt (xs : List JsVal) (index : Nat) : JsVal :=
  xs.getD index JsVal.undefined

/-- The expression `(b && (b.filename || b.name)) ? (b.filename || b.name) : ''`
of `restore`, `conflict` and `deleteSelected`.  The property reads are guarded
by `b &&`, so they never raise. -/
def entryFilename (b : JsVal) : JsVal :=
  if b.truthy && ((b.prop "filename").or (b.prop "name")).truthy then
    (b.prop "filename").or (b.prop "name")
  else
    JsVal.str ""

/-! ## Gateway -/

/-- Calls of `api.js` made by the component. -/
inductive Call where
  | getWebDAVConfig
  | updateWebDAVConfig (url username password : String)
  | listWebDAVBackups
  | backupToWebDAV (filename : String)
  | detectWebDAVConflict (filename : JsVal)
  | restoreFromWebDAV (filename : JsVal) (choice : String)
  | deleteWebDAVBackups (filenames : List JsVal)

/-- The gateway: given the calls issued so far and the call being issued, the
promise resolves with a value (`ok`) or rejects with an error message. -/
abbrev Gateway := List Call → Call → Except String JsVal

/-! ## Page state -/

/-- The four `notifications` channels. -/
inductive Level where
  | success
  | info
  | warning
  | error

/-- One call of `notifications.<level>(message)`. -/
structure Note where
  level : Level
  message : JsVal

/-- The `style.display` of the conflict-result panel. -/
inductive Display where
  | none
  | block

/-- Content of `#webdav-conflict-result`, by the template that wrote it. -/
inductive Panel where
  /-- As written by `render`: no content. -/
  | empty
  /-- The spinner shown while a gateway call is pending. -/
  | spinner
  /-- The card of `renderRestoreChoice`: the three buttons, bound to `filename`. -/
  | restoreChoice (filename : JsVal) (conflicts : List JsVal)
  /-- The "Restore Error" card of `restore`. -/
  | restoreError (filename : JsVal) (message : String)
  /-- The "Conflict Check" card of `conflict`. -/
  | conflictCheck (filename : JsVal) (conflicts : List JsVal)
  /-- The "Failed" card of `conflict`. -/
  | conflictFailed (message : JsVal)
  /-- The "Error" card of `conflict`. -/
  | conflictError (message : String)

/-- Content of `#webdav-backups`, by the template that wrote it. -/
inductive Listing where
  /-- As written by `render`: no content. -/
  | empty
  | spinner
  /-- An `empty-state` paragraph with the given text. -/
  | message (text : JsVal)
  /-- The table: per row the displayed filename and whether its checkbox is
  checked.  Row `i` carries `data-index = i`. -/
  | table (rows : List (JsVal × Bool))

/-- The component's fields and the parts of the page it reads and writes. -/
structure State where
  /-- The field `this.backups`. -/
  backups : List JsVal
  /-- Value of `#webdav-url`. -/
  url : String
  /-- Value of `#webdav-username`. -/
  username : String
  /-- Value of `#webdav-password`. -/
  password : String
  /-- Value of `#webdav-filename`. -/
  filenameField : String
  /-- Content of `#webdav-backups`. -/
  listing : Listing
  /-- Display style of `#webdav-conflict-result`. -/
  resultDisplay : Display
  /-- Content of `#webdav-conflict-result`. -/
  resultContent : Panel
  /-- Notifications shown so far, oldest first. -/
  notes : List Note
  /-- Gateway calls issued so far, oldest first. -/
  trace : List Call

/-- The state after the constructor and the markup of `render`. -/
def State.init : State where
  backups := []
  url := ""
  username := ""
  password := ""
  filenameField := ""
  listing := Listing.empty
  resultDisplay := Display.none
  resultContent := Panel.empty
  notes := []
  trace := []

/-- Show a notification. -/
def notify (level : Level) (message : JsVal) (s : State) : State :=
  { s with notes := s.notes ++ [⟨level, message⟩] }

/-- Issue a gateway call: its outcome, and the state with the call recorded. -/
def callApi (gw : Gateway) (c : Call) (s : State) : Except String JsVal × State :=
  (gw s.trace c, { s with trace := s.trace ++ [c] })

/-! ## Restore workflow -/

/-- The method `renderRestoreChoice(filename, conflicts)`: shows the panel and
binds the three buttons. -/
def renderRestoreChoice (filename : JsVal) (conflicts : List JsVal) (s : State) : State :=
  { s with resultDisplay := Display.block
           resultContent := Panel.restoreChoice filename conflicts }

/-- The `catch` block of `restore`. -/
def restoreFailed (filename : JsVal) (message : String) (s : State) : State :=
  { notify Level.error (JsVal.str ("Restore failed: " ++ message)) s with
    resultContent := Panel.restoreError filename message }

/-- The method `restore(index)`. -/
def restore (gw : Gateway) (index : Nat) (s : State) : State :=
  let filename := entryFilename (elemAt s.backups index)
  if !filename.truthy then
    notify Level.error (JsVal.str "Invalid backup filename") s
  else
    let s1 := { s with resultDisplay := Display.block, resultContent := Panel.spinner }
    match callApi gw (Call.detectWebDAVConflict filename) s1 with
    | (.error message, s2) => restoreFailed filename message s2
    | (.ok conflict, s2) =>
      match conflict.getProp "conflicts" with
      | .error message => restoreFailed filename message s2
      | .ok cv =>
        let conflicts := asArray cv
        if (conflict.prop "success").truthy && decide (conflicts.length > 0) then
          notify Level.warning (JsVal.str "Conflict detected: choose restore strategy")
            (renderRestoreChoice filename conflicts s2)
        else
          match callApi gw (Call.restoreFromWebDAV filename "local") s2 with
          | (.ok _, s3) =>
            { notify Level.success (JsVal.str "Restore completed") s3 with
              resultDisplay := Display.none }
          | (.error message, s3) => restoreFailed filename message s3

/-- Click on `#webdav-restore-cancel`; the button exists while the panel holds
the card of `renderRestoreChoice`. -/
def clickRestoreCancel (s : State) : State :=
  match s.resultContent with
  | Panel.restoreChoice _ _ => { s with resultDisplay := Display.none }
  | _ => s

/-- The handler shared in shape by `#webdav-restore-remote` and
`#webdav-restore-local`: one restore call for the bound filename. -/
def restoreWith (gw : Gateway) (filename : JsVal) (choice : String) (done : String)
    (s : State) : State :=
  match callApi gw (Call.restoreFromWebDAV filename choice) s with
  | (.ok _, s1) => { notify Level.success (JsVal.str done) s1 with resultDisplay := Display.none }
  | (.error message, s1) => notify Level.error (JsVal.str ("Restore failed: " ++ message)) s1

/-- Click on `#webdav-restore-remote`. -/
def clickRestoreRemote (gw : Gateway) (s : State) : State :=
  match s.resultContent with
  | Panel.restoreChoice filename _ =>
    restoreWith gw filename "remote" "Restore completed (remote overwrite)" s
  | _ => s

/-- Click on `#webdav-restore-local`. -/
def clickRestoreLocal (gw : Gateway) (s : State) : State :=
  match s.resultContent with
  | Panel.restoreChoice filename _ =>
    restoreWith gw filename "local" "Restore completed (keep local)" s
  | _ => s

/-! ## Standalone conflict check -/

/-- The method `conflict(index)`. -/
def conflict (gw : Gateway) (index : Nat) (s : State) : State :=
  let filename := entryFilename (elemAt s.backups index)
  if !filename.truthy then
    notify Level.error (JsVal.str "Invalid backup filename") s
  else
    let s1 := { s with resultDisplay := Display.block, resultContent := Panel.spinner }
    let failed (message : String) (st : State) : State :=
      notify Level.error (JsVal.str ("Conflict check failed: " ++ message))
        { st with resultContent := Panel.conflictError message }
    match callApi gw (Call.detectWebDAVConflict filename) s1 with
    | (.error message, s2) => failed message s2
    | (.ok result, s2) =>
      match result.getProp "success" with
      | .error message => failed message s2
      | .ok success =>
        if success.truthy then
          notify Level.info (JsVal.str "Conflict check done")
            { s2 with resultContent :=
                Panel.conflictCheck filename (asArray (result.prop "conflicts")) }
        else
          let message := (result.prop "message").or (JsVal.str "Conflict check failed")
          notify Level.error message { s2 with resultContent := Panel.conflictFailed message }

/-! ## Configuration -/

/-- White space and line terminators, as removed by `String.prototype.trim`. -/
def isJsSpace (c : Char) : Bool :=
  let n := c.toNat
  (9 ≤ n && n ≤ 13) || n == 32 || n == 160 || n == 5760 || (8192 ≤ n && n ≤ 8202)
    || n == 8232 || n == 8233 || n == 8239 || n == 8287 || n == 12288 || n == 65279

/-- The method `String.prototype.trim`. -/
def jsTrim (s : String) : String :=
  String.mk ((s.toList.dropWhile isJsSpace).reverse.dropWhile isJsSpace).reverse

/-- The method `loadConfig()`. -/
def loadConfig (gw : Gateway) (s : State) : State :=
  let failed (message : String) (st : State) : State :=
    notify Level.error (JsVal.str ("Failed to load WebDAV config: " ++ message)) st
  match callApi gw Call.getWebDAVConfig s with
  | (.error message, s1) => failed message s1
  | (.ok cfg, s1) =>
    match cfg.getProp "url" with
    | .error message => failed message s1
    | .ok url =>
      { s1 with url := (url.or (JsVal.str "")).toJsString
                username := ((cfg.prop "username").or (JsVal.str "")).toJsString
                password := "" }

/-- The method `saveConfig()`. -/
def saveConfig (gw : Gateway) (s : State) : State :=
  let url := jsTrim s.url
  let username := jsTrim s.username
  let password := s.password
  if url == "" then
    notify Level.warning (JsVal.str "URL is required") s
  else
    match callApi gw (Call.updateWebDAVConfig url username password) s with
    | (.ok _, s1) =>
      { notify Level.success (JsVal.str "WebDAV config saved") s1 with password := "" }
    | (.error message, s1) =>
      notify Level.error (JsVal.str ("Failed to save WebDAV config: " ++ message)) s1

/-! ## Backup catalog -/

/-- The filename cell of a table row: `b.filename || b.name || ''`, unguarded. -/
def rowFilename (b : JsVal) : Except String JsVal :=
  match b.getProp "filename" with
  | .error message => .error message
  | .ok filename =>
    if filename.truthy then .ok filename
    else .ok ((b.prop "name").or (JsVal.str ""))

/-- The rows of the table, all checkboxes unchecked; the first entry whose
property read raises aborts the rendering. -/
def renderRows : List JsVal → Except String (List (JsVal × Bool))
  | [] => .ok []
  | b :: rest =>
    match rowFilename b with
    | .error message => .error message
    | .ok filename =>
      match renderRows rest with
      | .error message => .error message
      | .ok rows => .ok ((filename, false) :: rows)

/-- The method `loadBackups()`. -/
def loadBackups (gw : Gateway) (s : State) : State :=
  let s1 := { s with listing := Listing.spinner }
  let failed (message : String) (st : State) : State :=
    notify Level.error (JsVal.str ("Failed to load backups: " ++ message))
      { st with listing := Listing.message (JsVal.str message) }
  match callApi gw Call.listWebDAVBackups s1 with
  | (.error message, s2) => failed message s2
  | (.ok result, s2) =>
    match result.getProp "success" with
    | .error message => failed message s2
    | .ok success =>
      if !success.truthy then
        { s2 with listing :=
            Listing.message ((result.prop "message").or (JsVal.str "Failed to load backups")) }
      else
        let s3 := { s2 with backups := asArray (result.prop "backups") }
        if s3.backups.length == 0 then
          { s3 with listing := Listing.message (JsVal.str "No backups found") }
        else
          match renderRows s3.backups with
          | .error message => failed message s3
          | .ok rows => { s3 with listing := Listing.table rows }

/-- The method `refresh()`. -/
def refresh (gw : Gateway) (s : State) : State :=
  loadBackups gw (loadConfig gw s)

/-- The method `backupNow()`. -/
def backupNow (gw : Gateway) (s : State) : State :=
  let filename := jsTrim s.filenameField
  match callApi gw (Call.backupToWebDAV filename) s with
  | (.ok _, s1) => loadBackups gw (notify Level.success (JsVal.str "Backup created") s1)
  | (.error message, s1) => notify Level.error (JsVal.str ("Backup failed: " ++ message)) s1

/-- The operator ticks or unticks the checkbox of row `index`. -/
def toggleCheck (index : Nat) (s : State) : State :=
  match s.listing with
  | Listing.table rows =>
    { s with listing := Listing.table (rows.modify (fun r => (r.1, !r.2)) index) }
  | _ => s

/-- The checkboxes `.webdav-backup-check` in document order: `data-index` and
`checked` of each. -/
def checkboxes (s : State) : List (Nat × Bool) :=
  match s.listing with
  | Listing.table rows => (rows.map Prod.snd).enum
  | _ => []

/-- The array `filenames` computed by `deleteSelected()`. -/
def selectedFilenames (s : State) : List JsVal :=
  (((checkboxes s).filter (fun c => c.2)).map
    (fun c => entryFilename (elemAt s.backups c.1))).filter JsVal.truthy

/-- The method `deleteSelected()`. -/
def deleteSelected (gw : Gateway) (s : State) : State :=
  let filenames := selectedFilenames s
  if filenames.length == 0 then
    notify Level.warning (JsVal.str "No backups selected") s
  else
    match callApi gw (Call.deleteWebDAVBackups filenames) s with
    | (.ok _, s1) => loadBackups gw (notify Level.success (JsVal.str "Deleted backups") s1)
    | (.error message, s1) => notify Level.error (JsVal.str ("Delete failed: " ++ message)) s1

/-! ## Workflow states and sample inputs -/

/-- The restore session is awaiting the operator: the card of
`renderRestoreChoice` for `filename` is on display with `conflicts`. -/
def awaitingChoice (s : State) (filename : JsVal) (conflicts : List JsVal) : Prop :=
  s.resultDisplay = Display.block ∧ s.resultContent = Panel.restoreChoice filename conflicts

/-- Whether the panel holds the strategy-choice card. -/
def Panel.isChoice : Panel → Bool
  | Panel.restoreChoice _ _ => true
  | _ => false

/-- A catalog with the single entry `backup-1.db`. -/
def catalog1 : State :=
  { State.init with backups := [JsVal.obj [("filename", JsVal.str "backup-1.db")]] }

/-- A gateway that acknowledges every call with `success: true` and no data. -/
def gwAck : Gateway := fun _ _ => .ok (JsVal.obj [("success", JsVal.bool true)])

/-- A gateway whose conflict detection reports `success: false`. -/
def gwDetectFails : Gateway := fun hist c =>
  match c with
  | Call.detectWebDAVConflict _ =>
    .ok (JsVal.obj [("success", JsVal.bool false), ("message", JsVal.str "check unavailable")])
  | _ => gwAck hist c

/-- A gateway whose conflict detection reports no conflict. -/
def gwNoConflict : Gateway := fun hist c =>
  match c with
  | Call.detectWebDAVConflict _ =>
    .ok (JsVal.obj [("success", JsVal.bool true), ("conflicts", JsVal.arr [])])
  | _ => gwAck hist c

/-- The conflict record of the scenario: table `notes`, row 5. -/
def notesRow5 : JsVal :=
  JsVal.obj [("table", JsVal.str "notes"), ("row", JsVal.num 5)]

/-- A gateway whose conflict detection reports the single conflict `notesRow5`. -/
def gwOneConflict : Gateway := fun hist c =>
  match c with
  | Call.detectWebDAVConflict _ =>
    .ok (JsVal.obj [("success", JsVal.bool true), ("conflicts", JsVal.arr [notesRow5])])
  | _ => gwAck hist c

/-- The session reached by `restore(0)` on `backup-1.db` when the gateway
reports the conflict `notesRow5`. -/
def awaitingBackup1 : State :=
  restore gwOneConflict 0 catalog1

/-- Whether a call is the enumeration of the backups. -/
def Call.isList : Call → Bool
  | Call.listWebDAVBackups => true
  | _ => false

/-- A gateway whose first enumeration lists `backup-1.db` and whose later
enumerations report `success: false`. -/
def gwListFailsLater : Gateway := fun hist c =>
  match c with
  | Call.listWebDAVBackups =>
    if hist.any Call.isList then
      .ok (JsVal.obj [("success", JsVal.bool false), ("message", JsVal.str "unreachable")])
    else
      .ok (JsVal.obj [("success", JsVal.bool true),
        ("backups", JsVal.arr [JsVal.obj [("filename", JsVal.str "backup-1.db")]])])
  | _ => gwAck hist c

/-- A gateway that lists the backups `a.db` and `b.db`. -/
def gwTwoBackups : Gateway := fun hist c =>
  match c with
  | Call.listWebDAVBackups =>
    .ok (JsVal.obj [("success", JsVal.bool true),
      ("backups", JsVal.arr [JsVal.obj [("filename", JsVal.str "a.db")],
                             JsVal.obj [("filename", JsVal.str "b.db")]])])
  | _ => gwAck hist c

/-- The page after loading the catalog of `gwTwoBackups` and ticking both rows. -/
def bothSelected : State :=
  toggleCheck 1 (toggleCheck 0 (loadBackups gwTwoBackups State.init))

/-- The form with a blank URL and a typed password. -/
def blankUrlForm : State :=
  { State.init with url := "   ", username := "alice", password := "secret" }

/-- The form filled in, with white space around the URL and the username. -/
def filledForm : State :=
  { State.init with url := " https://dav.example.com/dav ", username := " alice "
                    password := "secret" }

/-! ## Basic facts -/

theorem getProp_ok {v w : JsVal} {key : String} (h : v.getProp key = .ok w) :
    v.prop key = w ∧ ∀ k, v.getProp k = .ok (v.prop k) := by
  cases v <;> simp_all [JsVal.getProp]

theorem truthy_bool (b : Bool) : (JsVal.bool b).truthy = b := rfl

theorem entryFilename_empty_iff (b : JsVal) :
    (entryFilename b).truthy = false ↔ entryFilename b = JsVal.str "" := by
  unfold entryFilename
  split
  · rename_i h
    simp only [Bool.and_eq_true] at h
    constructor
    · intro h2; rw [h.2] at h2; cases h2
    · intro h2; rw [h2] at h; exact absurd h.2 (by decide)
  · constructor
    · intro _; rfl
    · intro _; rfl

/-! ## Restore workflow: validation -/

/-- Claim C6: when the filename resolved for `index` (`filename`, else `name`,
else the empty string; the empty string too when the catalog has no entry at
`index`) is empty, `restore(index)` only reports `Invalid backup filename`: it
issues no gateway call and leaves the conflict-result panel as it was. -/
theorem restore_empty_filename_rejected (gw : Gateway) (s : State) (index : Nat)
    (h : entryFilename (elemAt s.backups index) = JsVal.str "") :
    restore gw index s = notify Level.error (JsVal.str "Invalid backup filename") s
    ∧ (restore gw index s).notes = s.notes ++ [⟨Level.error, JsVal.str "Invalid backup filename"⟩]
    ∧ (restore gw index s).trace = s.trace
    ∧ (restore gw index s).resultDisplay = s.resultDisplay
    ∧ (restore gw index s).resultContent = s.resultContent := by
  have h1 : restore gw index s = notify Level.error (JsVal.str "Invalid backup filename") s := by
    unfold restore
    simp [h, JsVal.truthy]
  rw [h1]
  exact ⟨rfl, rfl, rfl, rfl, rfl⟩

/-- The instance of C6 at an index with no catalog entry. -/
theorem restore_empty_filename_rejected_witness :
    (restore gwAck 0 State.init).trace = [] ∧ (restore gwAck 0 State.init).resultContent = Panel.empty :=
  ⟨(restore_empty_filename_rejected gwAck State.init 0 rfl).2.2.1,
   (restore_empty_filename_rejected gwAck State.init 0 rfl).2.2.2.2⟩

/-! ## Restore workflow: conflict detection -/

/-- Claim C1, as the code has it: when conflict detection answers with
`success: false`, `restore(index)` does not stop: it goes on to issue
`restoreFromWebDAV(filename, "local")`, so the calls it makes are the conflict
check followed by a restore, and the panel never shows the gateway's message. -/
theorem restore_reported_failure_still_restores (gw : Gateway) (s : State) (index : Nat)
    (r : JsVal)
    (hf : (entryFilename (elemAt s.backups index)).truthy = true)
    (hr : gw s.trace (Call.detectWebDAVConflict (entryFilename (elemAt s.backups index))) = .ok r)
    (hs : r.getProp "success" = .ok (JsVal.bool false)) :
    (restore gw index s).trace =
      s.trace ++ [Call.detectWebDAVConflict (entryFilename (elemAt s.backups index)),
                  Call.restoreFromWebDAV (entryFilename (elemAt s.backups index)) "local"] := by
  obtain ⟨hp, hg⟩ := getProp_ok hs
  unfold restore
  simp only [hf, callApi, hr, hg, hp, truthy_bool, Bool.not_true, Bool.false_and]
  cases gw (s.trace ++ [Call.detectWebDAVConflict (entryFilename (elemAt s.backups index))])
    (Call.restoreFromWebDAV (entryFilename (elemAt s.backups index)) "local") <;>
    simp [notify, restoreFailed]

/-- The failing input of C1: `backup-1.db`, conflict detection answering
`success: false`.  The restore call is issued and reported as completed. -/
theorem restore_reported_failure_still_restores_witness :
    (restore gwDetectFails 0 catalog1).trace =
      [Call.detectWebDAVConflict (JsVal.str "backup-1.db"),
       Call.restoreFromWebDAV (JsVal.str "backup-1.db") "local"]
    ∧ (restore gwDetectFails 0 catalog1).notes =
      [⟨Level.success, JsVal.str "Restore completed"⟩]
    ∧ (restore gwDetectFails 0 catalog1).resultDisplay = Display.none :=
  ⟨restore_reported_failure_still_restores gwDetectFails catalog1 0
      (JsVal.obj [("success", JsVal.bool false), ("message", JsVal.str "check unavailable")])
      rfl rfl rfl,
   rfl, rfl⟩

/-- Claim C2: when conflict detection answers `success: true` with an empty
conflict list, `restore(index)` issues the conflict check and then one restore
call with strategy `local`, in that order, and never renders the
strategy-choice card; when the restore call succeeds it reports completion and
hides the panel. -/
theorem restore_no_conflicts_prefers_local (gw : Gateway) (s : State) (index : Nat)
    (r : JsVal)
    (hf : (entryFilename (elemAt s.backups index)).truthy = true)
    (hr : gw s.trace (Call.detectWebDAVConflict (entryFilename (elemAt s.backups index))) = .ok r)
    (_hs : r.getProp "success" = .ok (JsVal.bool true))
    (hc : r.getProp "conflicts" = .ok (JsVal.arr [])) :
    (restore gw index s).trace =
      s.trace ++ [Call.detectWebDAVConflict (entryFilename (elemAt s.backups index)),
                  Call.restoreFromWebDAV (entryFilename (elemAt s.backups index)) "local"]
    ∧ (restore gw index s).resultContent.isChoice = false
    ∧ ∀ ack, gw (s.trace ++ [Call.detectWebDAVConflict (entryFilename (elemAt s.backups index))])
          (Call.restoreFromWebDAV (entryFilename (elemAt s.backups index)) "local") = .ok ack →
        (restore gw index s).notes = s.notes ++ [⟨Level.success, JsVal.str "Restore completed"⟩]
        ∧ (restore gw index s).resultDisplay = Display.none := by
  unfold restore
  simp only [hf, callApi, hr, hc, JsVal.asArray, Bool.not_true, List.length_nil, gt_iff_lt,
    lt_self_iff_false, decide_False, Bool.and_false]
  cases gw (s.trace ++ [Call.detectWebDAVConflict (entryFilename (elemAt s.backups index))])
    (Call.restoreFromWebDAV (entryFilename (elemAt s.backups index)) "local") <;>
    simp [notify, restoreFailed, Panel.isChoice]

/-- The instance of C2 for `backup-1.db`. -/
theorem restore_no_conflicts_prefers_local_witness :
    (restore gwNoConflict 0 catalog1).trace =
      [Call.detectWebDAVConflict (JsVal.str "backup-1.db"),
       Call.restoreFromWebDAV (JsVal.str "backup-1.db") "local"] :=
  (restore_no_conflicts_prefers_local gwNoConflict catalog1 0
    (JsVal.obj [("success", JsVal.bool true), ("conflicts", JsVal.arr [])])
    rfl rfl rfl rfl).1

/-- Claim C3: when conflict detection answers `success: true` with a non-empty
conflict list `cs`, `restore(index)` ends awaiting the operator: the
strategy-choice card for the filename is on display with exactly `cs`, a warning
is shown, and the only gateway call made is the conflict check, so no restore
call has been issued. -/
theorem restore_conflicts_await_choice (gw : Gateway) (s : State) (index : Nat)
    (r : JsVal) (cs : List JsVal)
    (hf : (entryFilename (elemAt s.backups index)).truthy = true)
    (hr : gw s.trace (Call.detectWebDAVConflict (entryFilename (elemAt s.backups index))) = .ok r)
    (hs : r.getProp "success" = .ok (JsVal.bool true))
    (hc : r.getProp "conflicts" = .ok (JsVal.arr cs))
    (hne : cs ≠ []) :
    awaitingChoice (restore gw index s) (entryFilename (elemAt s.backups index)) cs
    ∧ (restore gw index s).trace =
        s.trace ++ [Call.detectWebDAVConflict (entryFilename (elemAt s.backups index))]
    ∧ (∀ g choice, Call.restoreFromWebDAV g choice ∉
        [Call.detectWebDAVConflict (entryFilename (elemAt s.backups index))])
    ∧ (restore gw index s).notes =
        s.notes ++ [⟨Level.warning, JsVal.str "Conflict detected: choose restore strategy"⟩] := by
  obtain ⟨hp, _⟩ := getProp_ok hs
  have hlen : 0 < cs.length := List.length_pos.mpr hne
  unfold restore
  simp only [hf, callApi, hr, hc, hp, JsVal.asArray, truthy_bool]
  simp [hlen, notify, renderRestoreChoice, awaitingChoice]

/-- The scenario of C3: `backup-1.db` with the single conflict
`(table: notes, row: 5)` ends awaiting the choice with that conflict shown. -/
theorem restore_conflicts_await_choice_witness :
    awaitingChoice (restore gwOneConflict 0 catalog1) (JsVal.str "backup-1.db") [notesRow5]
    ∧ (restore gwOneConflict 0 catalog1).trace =
        [Call.detectWebDAVConflict (JsVal.str "backup-1.db")] :=
  ⟨(restore_conflicts_await_choice gwOneConflict catalog1 0
      (JsVal.obj [("success", JsVal.bool true), ("conflicts", JsVal.arr [notesRow5])])
      [notesRow5] rfl rfl rfl rfl (by simp)).1,
   (restore_conflicts_await_choice gwOneConflict catalog1 0
      (JsVal.obj [("success", JsVal.bool true), ("conflicts", JsVal.arr [notesRow5])])
      [notesRow5] rfl rfl rfl rfl (by simp)).2.1⟩

/-! ## Restore workflow: the operator's choice -/

/-- Claim C4: in a session awaiting the choice for `filename`, selecting the
remote strategy issues exactly one gateway call, `restore(filename, "remote")`,
and selecting the local strategy exactly one call `restore(filename, "local")`;
when the call succeeds the completion is reported and the choice panel is
hidden. -/
theorem choice_issues_one_restore (gw : Gateway) (s : State) (filename : JsVal)
    (cs : List JsVal) (h : awaitingChoice s filename cs) :
    (clickRestoreRemote gw s).trace = s.trace ++ [Call.restoreFromWebDAV filename "remote"]
    ∧ (clickRestoreLocal gw s).trace = s.trace ++ [Call.restoreFromWebDAV filename "local"]
    ∧ (∀ ack, gw s.trace (Call.restoreFromWebDAV filename "remote") = .ok ack →
        (clickRestoreRemote gw s).resultDisplay = Display.none
        ∧ (clickRestoreRemote gw s).notes =
            s.notes ++ [⟨Level.success, JsVal.str "Restore completed (remote overwrite)"⟩])
    ∧ (∀ ack, gw s.trace (Call.restoreFromWebDAV filename "local") = .ok ack →
        (clickRestoreLocal gw s).resultDisplay = Display.none
        ∧ (clickRestoreLocal gw s).notes =
            s.notes ++ [⟨Level.success, JsVal.str "Restore completed (keep local)"⟩]) := by
  obtain ⟨_, hc⟩ := h
  unfold clickRestoreRemote clickRestoreLocal restoreWith
  simp only [hc, callApi]
  refine ⟨?_, ?_, ?_, ?_⟩
  · cases gw s.trace (Call.restoreFromWebDAV filename "remote") <;> simp [notify]
  · cases gw s.trace (Call.restoreFromWebDAV filename "local") <;> simp [notify]
  · intro ack hack
    simp [hack, notify]
  · intro ack hack
    simp [hack, notify]

/-- The scenario of C4: after the conflict check of `backup-1.db`, selecting the
remote strategy issues exactly `restore("backup-1.db", "remote")`, and on its
success the panel is hidden. -/
theorem choice_issues_one_restore_witness :
    (clickRestoreRemote gwOneConflict awaitingBackup1).trace =
      [Call.detectWebDAVConflict (JsVal.str "backup-1.db"),
       Call.restoreFromWebDAV (JsVal.str "backup-1.db") "remote"]
    ∧ (clickRestoreRemote gwOneConflict awaitingBackup1).resultDisplay = Display.none :=
  ⟨(choice_issues_one_restore gwOneConflict awaitingBackup1 (JsVal.str "backup-1.db")
      [notesRow5] ⟨rfl, rfl⟩).1,
   ((choice_issues_one_restore gwOneConflict awaitingBackup1 (JsVal.str "backup-1.db")
      [notesRow5] ⟨rfl, rfl⟩).2.2.1 (JsVal.obj [("success", JsVal.bool true)]) rfl).1⟩

/-- Claim C5: in a session awaiting the choice, the cancel button only hides the
panel: the gateway call trace is unchanged, so no restore call is issued, and
nothing else in the state changes. -/
theorem cancel_issues_no_call (s : State) (filename : JsVal) (cs : List JsVal)
    (h : awaitingChoice s filename cs) :
    (clickRestoreCancel s).trace = s.trace
    ∧ (clickRestoreCancel s).resultDisplay = Display.none
    ∧ clickRestoreCancel s = { s with resultDisplay := Display.none } := by
  obtain ⟨_, hc⟩ := h
  unfold clickRestoreCancel
  simp [hc]

/-- The instance of C5 for the session on `backup-1.db`: after the cancel the
trace still holds the conflict check alone. -/
theorem cancel_issues_no_call_witness :
    (clickRestoreCancel awaitingBackup1).trace =
      [Call.detectWebDAVConflict (JsVal.str "backup-1.db")]
    ∧ (clickRestoreCancel awaitingBackup1).resultDisplay = Display.none :=
  ⟨(cancel_issues_no_call awaitingBackup1 (JsVal.str "backup-1.db") [notesRow5] ⟨rfl, rfl⟩).1,
   (cancel_issues_no_call awaitingBackup1 (JsVal.str "backup-1.db") [notesRow5] ⟨rfl, rfl⟩).2.1⟩

/-! ## Standalone conflict check -/

/-- Claim C9 fails as stated: the standalone check writes into the panel that
holds the strategy-choice card.  On the session awaiting the choice for
`backup-1.db`, `conflict(0)` replaces the card by its own result; the session
is no longer awaiting and the strategy buttons are gone (a click on the remote
button finds nothing and issues no call). -/
theorem conflict_check_discards_choice :
    awaitingChoice awaitingBackup1 (JsVal.str "backup-1.db") [notesRow5]
    ∧ ¬ awaitingChoice (conflict gwOneConflict 0 awaitingBackup1)
          (JsVal.str "backup-1.db") [notesRow5]
    ∧ (conflict gwOneConflict 0 awaitingBackup1).resultContent =
        Panel.conflictCheck (JsVal.str "backup-1.db") [notesRow5]
    ∧ (clickRestoreRemote gwOneConflict (conflict gwOneConflict 0 awaitingBackup1)).trace =
        (conflict gwOneConflict 0 awaitingBackup1).trace := by
  refine ⟨⟨rfl, rfl⟩, ?_, rfl, rfl⟩
  intro h
  have hc : (conflict gwOneConflict 0 awaitingBackup1).resultContent =
      Panel.conflictCheck (JsVal.str "backup-1.db") [notesRow5] := rfl
  rw [h.2] at hc
  cases hc

/-- Claim C9, amended: `conflict(index)` never changes the catalog and issues at
most one gateway call, the conflict check of the resolved filename, never a
restore.  With an empty filename it makes no call and leaves the panel as it
was, so a pending choice survives.  With a non-empty filename it makes exactly
that one call and overwrites the shared panel with its own result: afterwards
the panel does not hold the strategy-choice card, and clicks on the strategy
and cancel buttons have no effect. -/
theorem conflict_check_effect (gw : Gateway) (s : State) (index : Nat) :
    (conflict gw index s).backups = s.backups
    ∧ ((entryFilename (elemAt s.backups index)).truthy = false →
        (conflict gw index s).trace = s.trace
        ∧ (conflict gw index s).resultDisplay = s.resultDisplay
        ∧ (conflict gw index s).resultContent = s.resultContent)
    ∧ ((entryFilename (elemAt s.backups index)).truthy = true →
        (conflict gw index s).trace =
          s.trace ++ [Call.detectWebDAVConflict (entryFilename (elemAt s.backups index))]
        ∧ (conflict gw index s).resultDisplay = Display.block
        ∧ (conflict gw index s).resultContent.isChoice = false
        ∧ clickRestoreRemote gw (conflict gw index s) = conflict gw index s
        ∧ clickRestoreLocal gw (conflict gw index s) = conflict gw index s
        ∧ clickRestoreCancel (conflict gw index s) = conflict gw index s) := by
  have key : ∀ t : State, t.resultContent.isChoice = false →
      clickRestoreRemote gw t = t ∧ clickRestoreLocal gw t = t ∧ clickRestoreCancel t = t := by
    intro t ht
    unfold clickRestoreRemote clickRestoreLocal clickRestoreCancel
    cases hc : t.resultContent <;> simp_all [Panel.isChoice]
  cases hf : (entryFilename (elemAt s.backups index)).truthy
  · have h1 : conflict gw index s =
        notify Level.error (JsVal.str "Invalid backup filename") s := by
      unfold conflict
      simp [hf]
    rw [h1]
    simp [notify]
  · have h2 : (conflict gw index s).backups = s.backups
        ∧ (conflict gw index s).trace =
            s.trace ++ [Call.detectWebDAVConflict (entryFilename (elemAt s.backups index))]
        ∧ (conflict gw index s).resultDisplay = Display.block
        ∧ (conflict gw index s).resultContent.isChoice = false := by
      unfold conflict
      simp only [hf, callApi, Bool.not_true]
      cases gw s.trace (Call.detectWebDAVConflict (entryFilename (elemAt s.backups index)))
        with
      | error message => simp [notify, Panel.isChoice]
      | ok result =>
        cases hg : result.getProp "success" with
        | error message => simp [hg, notify, Panel.isChoice]
        | ok success =>
          cases ht : success.truthy <;> simp [hg, ht, notify, Panel.isChoice]
    obtain ⟨hb, htr, hd, hp⟩ := h2
    obtain ⟨k1, k2, k3⟩ := key _ hp
    simp [hb, htr, hd, hp, k1, k2, k3]

/-- The instance of the amended C9 on the session awaiting the choice for
`backup-1.db`: one conflict check is issued and the choice card is gone. -/
theorem conflict_check_effect_witness :
    (conflict gwOneConflict 0 awaitingBackup1).trace =
      [Call.detectWebDAVConflict (JsVal.str "backup-1.db"),
       Call.detectWebDAVConflict (JsVal.str "backup-1.db")]
    ∧ (conflict gwOneConflict 0 awaitingBackup1).resultContent.isChoice = false :=
  ⟨((conflict_check_effect gwOneConflict awaitingBackup1 0).2.2 rfl).1,
   ((conflict_check_effect gwOneConflict awaitingBackup1 0).2.2 rfl).2.2.1⟩

/-! ## Backup catalog -/

theorem loadConfig_frame (gw : Gateway) (s : State) :
    (loadConfig gw s).backups = s.backups
    ∧ (loadConfig gw s).trace = s.trace ++ [Call.getWebDAVConfig] := by
  unfold loadConfig
  simp only [callApi]
  cases gw s.trace Call.getWebDAVConfig with
  | error message => simp [notify]
  | ok cfg =>
    cases hg : cfg.getProp "url" <;> simp [hg, notify]

theorem loadBackups_trace (gw : Gateway) (s : State) :
    (loadBackups gw s).trace = s.trace ++ [Call.listWebDAVBackups] := by
  unfold loadBackups
  simp only [callApi]
  cases gw s.trace Call.listWebDAVBackups with
  | error message => simp [notify]
  | ok result =>
    cases hg : result.getProp "success" with
    | error message => simp [hg, notify]
    | ok success =>
      cases ht : success.truthy
      · simp [hg, ht]
      · cases hl : (asArray (result.prop "backups")).length == 0
        · cases hrows : renderRows (asArray (result.prop "backups")) <;>
            simp [hg, ht, hl, hrows, notify]
        · simp [hg, ht, hl]

theorem loadBackups_reported_failure (gw : Gateway) (s : State) (r : JsVal)
    (hr : gw s.trace Call.listWebDAVBackups = .ok r)
    (hs : r.getProp "success" = .ok (JsVal.bool false)) :
    loadBackups gw s =
      { s with listing :=
                 Listing.message ((r.prop "message").or (JsVal.str "Failed to load backups"))
               trace := s.trace ++ [Call.listWebDAVBackups] } := by
  unfold loadBackups
  simp [callApi, hr, hs, truthy_bool]

/-- Claim C8 fails as stated: a stored catalog survives a failed enumeration.
After a first refresh has stored `backup-1.db`, a second refresh answered with
`success: false` leaves `this.backups` with its one entry. -/
theorem refresh_failure_keeps_stale_entries :
    (refresh gwListFailsLater State.init).backups.length = 1
    ∧ gwListFailsLater
        ((refresh gwListFailsLater State.init).trace ++ [Call.getWebDAVConfig])
        Call.listWebDAVBackups =
        .ok (JsVal.obj [("success", JsVal.bool false), ("message", JsVal.str "unreachable")])
    ∧ ¬ ((refresh gwListFailsLater (refresh gwListFailsLater State.init)).backups.length = 0) := by
  refine ⟨rfl, rfl, ?_⟩
  have h : (refresh gwListFailsLater (refresh gwListFailsLater State.init)).backups.length = 1 :=
    rfl
  rw [h]
  decide

/-- Claim C8, amended: when the enumeration answers `success: false`, `refresh`
leaves the stored backups list as it was (empty only if it was empty before),
replaces the displayed listing by the gateway's message, or by
`Failed to load backups` when it has none, so that no row and no checkbox is
displayed, and shows no notification for it. -/
theorem refresh_reported_failure (gw : Gateway) (s : State) (r : JsVal)
    (hr : gw (s.trace ++ [Call.getWebDAVConfig]) Call.listWebDAVBackups = .ok r)
    (hs : r.getProp "success" = .ok (JsVal.bool false)) :
    (refresh gw s).backups = s.backups
    ∧ (refresh gw s).listing =
        Listing.message ((r.prop "message").or (JsVal.str "Failed to load backups"))
    ∧ checkboxes (refresh gw s) = []
    ∧ (refresh gw s).notes = (loadConfig gw s).notes
    ∧ (refresh gw s).trace = s.trace ++ [Call.getWebDAVConfig, Call.listWebDAVBackups] := by
  obtain ⟨hb, ht⟩ := loadConfig_frame gw s
  have h : refresh gw s =
      { loadConfig gw s with
        listing := Listing.message ((r.prop "message").or (JsVal.str "Failed to load backups"))
        trace := (loadConfig gw s).trace ++ [Call.listWebDAVBackups] } := by
    unfold refresh
    exact loadBackups_reported_failure gw (loadConfig gw s) r (by rw [ht]; exact hr) hs
  rw [h]
  simp [hb, ht, checkboxes]

/-- The instance of the amended C8 on the catalog holding `backup-1.db`: the
failed refresh keeps the entry and displays the gateway's message. -/
theorem refresh_reported_failure_witness :
    (refresh gwListFailsLater (refresh gwListFailsLater State.init)).backups =
      [JsVal.obj [("filename", JsVal.str "backup-1.db")]]
    ∧ (refresh gwListFailsLater (refresh gwListFailsLater State.init)).listing =
      Listing.message (JsVal.str "unreachable") :=
  ⟨(refresh_reported_failure gwListFailsLater (refresh gwListFailsLater State.init)
      (JsVal.obj [("success", JsVal.bool false), ("message", JsVal.str "unreachable")])
      rfl rfl).1,
   (refresh_reported_failure gwListFailsLater (refresh gwListFailsLater State.init)
      (JsVal.obj [("success", JsVal.bool false), ("message", JsVal.str "unreachable")])
      rfl rfl).2.1⟩

/-- Claim C7: with no filename selected, `deleteSelected` only warns
`No backups selected` and makes no gateway call.  With a non-empty selection it
issues exactly one `deleteWebDAVBackups` call carrying the whole list of
selected filenames; when that call succeeds the catalog is reloaded right after
it, and when it fails no reload happens.  The list carried is the filenames of
the ticked rows, in row order, whenever each of them has a filename. -/
theorem deleteSelected_one_batched_call (gw : Gateway) (s : State) :
    (selectedFilenames s = [] →
        deleteSelected gw s = notify Level.warning (JsVal.str "No backups selected") s
        ∧ (deleteSelected gw s).trace = s.trace)
    ∧ (selectedFilenames s ≠ [] →
        (∀ ack, gw s.trace (Call.deleteWebDAVBackups (selectedFilenames s)) = .ok ack →
          (deleteSelected gw s).trace =
            s.trace ++ [Call.deleteWebDAVBackups (selectedFilenames s), Call.listWebDAVBackups])
        ∧ (∀ message,
            gw s.trace (Call.deleteWebDAVBackups (selectedFilenames s)) = .error message →
          (deleteSelected gw s).trace =
            s.trace ++ [Call.deleteWebDAVBackups (selectedFilenames s)]
          ∧ (deleteSelected gw s).backups = s.backups
          ∧ (deleteSelected gw s).listing = s.listing))
    ∧ ((∀ c ∈ (checkboxes s).filter (fun c => c.2),
          (entryFilename (elemAt s.backups c.1)).truthy = true) →
        selectedFilenames s =
          ((checkboxes s).filter (fun c => c.2)).map
            (fun c => entryFilename (elemAt s.backups c.1))) := by
  refine ⟨?_, ?_, ?_⟩
  · intro h
    have h1 : deleteSelected gw s =
        notify Level.warning (JsVal.str "No backups selected") s := by
      unfold deleteSelected
      simp [h]
    rw [h1]
    exact ⟨rfl, rfl⟩
  · intro h
    have hlen : ((selectedFilenames s).length == 0) = false := by
      cases hsel : selectedFilenames s with
      | nil => exact absurd hsel h
      | cons x xs => rfl
    refine ⟨?_, ?_⟩
    · intro ack hack
      unfold deleteSelected
      simp only [hlen, callApi, hack, Bool.false_eq_true, if_false]
      rw [loadBackups_trace]
      simp [notify]
    · intro message hmsg
      unfold deleteSelected
      simp [hlen, callApi, hmsg, notify]
  · intro h
    unfold selectedFilenames
    rw [List.filter_eq_self]
    intro v hv
    obtain ⟨c, hc, rfl⟩ := List.mem_map.mp hv
    exact h c hc

/-- The scenario of C7: with `a.db` and `b.db` ticked, `deleteSelected` issues
the single call `deleteBackups(["a.db", "b.db"])`, then reloads the catalog. -/
theorem deleteSelected_one_batched_call_witness :
    selectedFilenames bothSelected = [JsVal.str "a.db", JsVal.str "b.db"]
    ∧ (deleteSelected gwTwoBackups bothSelected).trace =
      [Call.listWebDAVBackups,
       Call.deleteWebDAVBackups [JsVal.str "a.db", JsVal.str "b.db"],
       Call.listWebDAVBackups] :=
  ⟨rfl,
   ((deleteSelected_one_batched_call gwTwoBackups bothSelected).2.1
      (fun h => absurd (congrArg List.length h) (by decide))).1
      (JsVal.obj [("success", JsVal.bool true)]) rfl⟩

/-! ## Configuration -/

/-- Claim C10: `saveConfig` checks the trimmed URL first.  When it is empty
(in particular when the field is empty) it only warns `URL is required`: no
gateway call is made and the password field keeps its value.  Otherwise it
makes exactly one `updateWebDAVConfig` call with the trimmed URL, the trimmed
username and the password; the password field is emptied when that call
succeeds and keeps its value when it fails. -/
theorem saveConfig_validates_url (gw : Gateway) (s : State) :
    (jsTrim s.url = "" →
        saveConfig gw s = notify Level.warning (JsVal.str "URL is required") s
        ∧ (saveConfig gw s).trace = s.trace
        ∧ (saveConfig gw s).password = s.password)
    ∧ (jsTrim s.url ≠ "" →
        (saveConfig gw s).trace =
          s.trace ++ [Call.updateWebDAVConfig (jsTrim s.url) (jsTrim s.username) s.password]
        ∧ (∀ ack, gw s.trace
              (Call.updateWebDAVConfig (jsTrim s.url) (jsTrim s.username) s.password) = .ok ack →
            (saveConfig gw s).password = "")
        ∧ (∀ message, gw s.trace
              (Call.updateWebDAVConfig (jsTrim s.url) (jsTrim s.username) s.password)
                = .error message →
            (saveConfig gw s).password = s.password)) := by
  refine ⟨?_, ?_⟩
  · intro h
    have h1 : saveConfig gw s = notify Level.warning (JsVal.str "URL is required") s := by
      unfold saveConfig
      simp [h]
    rw [h1]
    exact ⟨rfl, rfl, rfl⟩
  · intro h
    unfold saveConfig
    simp only [beq_iff_eq, h, if_false, callApi]
    refine ⟨?_, ?_, ?_⟩
    · cases gw s.trace
        (Call.updateWebDAVConfig (jsTrim s.url) (jsTrim s.username) s.password) <;>
        simp [notify]
    · intro ack hack
      simp [hack, notify]
    · intro message hmsg
      simp [hmsg, notify]

/-- The instances of C10: a blank URL reaches no gateway call and keeps the
password; a filled form issues one call with the trimmed values and, on its
success, empties the password field. -/
theorem saveConfig_validates_url_witness :
    (saveConfig gwAck blankUrlForm).trace = []
    ∧ (saveConfig gwAck blankUrlForm).password = "secret"
    ∧ (saveConfig gwAck filledForm).trace =
        [Call.updateWebDAVConfig "https://dav.example.com/dav" "alice" "secret"]
    ∧ (saveConfig gwAck filledForm).password = "" :=
  ⟨((saveConfig_validates_url gwAck blankUrlForm).1 rfl).2.1,
   ((saveConfig_validates_url gwAck blankUrlForm).1 rfl).2.2,
   ((saveConfig_validates_url gwAck filledForm).2 (by decide)).1,
   ((saveConfig_validates_url gwAck filledForm).2 (by decide)).2.1
      (JsVal.obj [("success", JsVal.bool true)]) rfl⟩

end WebDAV
